import Mathlib

/-!
Verification development for the parabola renderer core.

The definitions below are shallow embeddings of the JavaScript sources:
  * `src/js/mtrl.js`        — material flags, bucket tests, texture loading,
                              material GL state application, and the shader
                              variant builder bundled with it;
  * `src/src/solid-model.js`— scene building, stepping, draw passes,
                              billboard transforms;
  * `src/unnamed/part_000`  — the `Mesh` vertex packer.

JavaScript numbers used in bitwise positions are modelled as `Nat` (all flag
words are non-negative and far below 2^31, so JS ToInt32 coercion is the
identity on them); float data is modelled as `ℚ` where only storage and
equality matter, and as `ℝ` where trigonometry is involved (billboards).
A JS object reference is modelled as an index into an explicit heap where
reference identity (`===`) matters (movers).
-/

set_option maxRecDepth 4096

namespace Parabola

/-! ### Material flags — `src/js/mtrl.js` lines 25–35 -/

namespace Mtrl

def PARTICLE    : Nat := 1 <<< 10
def ALPHA_TEST  : Nat := 1 <<< 9
def REFLECTIVE  : Nat := 1 <<< 8
def TRANSPARENT : Nat := 1 <<< 7
def SHADOWED    : Nat := 1 <<< 6
def DECAL       : Nat := 1 <<< 5
def ENVIRONMENT : Nat := 1 <<< 4
def TWO_SIDED   : Nat := 1 <<< 3
def ADDITIVE    : Nat := 1 <<< 2
def CLAMP_S     : Nat := 1 <<< 1
def CLAMP_T     : Nat := 1 <<< 0

/-- A material sorting rule: an include mask and an exclude mask
(`{ in: …, ex: … }` objects in the source; `in` is a Lean keyword, so the
field is named `inc`). -/
structure Rules where
  inc : Nat
  ex : Nat

def opaqueRules : Rules := ⟨0, REFLECTIVE ||| TRANSPARENT ||| DECAL⟩
def opaqueDecalRules : Rules := ⟨DECAL, REFLECTIVE ||| TRANSPARENT⟩
def transparentDecalRules : Rules := ⟨DECAL ||| TRANSPARENT, REFLECTIVE⟩
def transparentRules : Rules := ⟨TRANSPARENT, REFLECTIVE ||| DECAL⟩
def reflectiveRules : Rules := ⟨REFLECTIVE, 0⟩

/-- `Mtrl.prototype.test`: all bits of the include mask set, no bit of the
exclude mask set, on the flag word `fl`. -/
def test (fl : Nat) (rules : Rules) : Bool :=
  (fl &&& rules.inc == rules.inc) && (fl &&& rules.ex == 0)

def isOpaque (fl : Nat) : Bool := test fl opaqueRules
def isOpaqueDecal (fl : Nat) : Bool := test fl opaqueDecalRules
def isTransparentDecal (fl : Nat) : Bool := test fl transparentDecalRules
def isTransparent (fl : Nat) : Bool := test fl transparentRules
def isReflective (fl : Nat) : Bool := test fl reflectiveRules

/-- The five bucket predicates evaluated on a flag word, in the spec's
bucket order. -/
def bucketTests (fl : Nat) : List Bool :=
  [isReflective fl, isOpaque fl, isOpaqueDecal fl, isTransparentDecal fl,
   isTransparent fl]

end Mtrl

/-- Masking first by a superset mask does not change a bitwise-and:
if `a`'s bits are contained in `b` (i.e. `b &&& a = a`) then
`(fl &&& b) &&& a = fl &&& a`. -/
theorem and_mask_of_subset (fl a b : Nat) (hab : b &&& a = a) :
    (fl &&& b) &&& a = fl &&& a := by
  rw [Nat.and_assoc, hab]

/-- Every bucket rule mask is contained in
`REFLECTIVE ||| TRANSPARENT ||| DECAL` (= 416), so each bucket test only
depends on the flag word masked by 416. -/
theorem bucketTests_and_416 (fl : Nat) :
    Mtrl.bucketTests fl = Mtrl.bucketTests (fl &&& 416) := by
  have h0 : ∀ (r : Mtrl.Rules), (416 : Nat) &&& r.inc = r.inc →
      (416 : Nat) &&& r.ex = r.ex →
      Mtrl.test fl r = Mtrl.test (fl &&& 416) r := by
    intro r h1 h2
    unfold Mtrl.test
    rw [and_mask_of_subset fl r.inc 416 h1, and_mask_of_subset fl r.ex 416 h2]
  unfold Mtrl.bucketTests Mtrl.isReflective Mtrl.isOpaque Mtrl.isOpaqueDecal
    Mtrl.isTransparentDecal Mtrl.isTransparent
  rw [h0 Mtrl.reflectiveRules (by decide) (by decide),
      h0 Mtrl.opaqueRules (by decide) (by decide),
      h0 Mtrl.opaqueDecalRules (by decide) (by decide),
      h0 Mtrl.transparentDecalRules (by decide) (by decide),
      h0 Mtrl.transparentRules (by decide) (by decide)]

/-- `fl &&& m = m` says exactly that every bit of `m` is set in `fl`. -/
theorem and_eq_self_iff_superset (fl m : Nat) :
    fl &&& m = m ↔ ∀ i, m.testBit i = true → fl.testBit i = true := by
  constructor
  · intro h i hm
    have h2 := congrArg (Nat.testBit · i) h
    simp only [Nat.testBit_and] at h2
    rw [hm] at h2
    simpa using h2
  · intro h
    apply Nat.eq_of_testBit_eq
    intro i
    rw [Nat.testBit_and]
    cases hm : m.testBit i
    · simp
    · simp [h i hm]

/-- `fl &&& m = 0` says exactly that no bit of `m` is set in `fl`. -/
theorem and_eq_zero_iff_disjoint (fl m : Nat) :
    fl &&& m = 0 ↔ ∀ i, m.testBit i = true → fl.testBit i = false := by
  constructor
  · intro h i hm
    have h2 := congrArg (Nat.testBit · i) h
    simp only [Nat.testBit_and, Nat.zero_testBit] at h2
    rw [hm] at h2
    simpa using h2
  · intro h
    apply Nat.eq_of_testBit_eq
    intro i
    rw [Nat.testBit_and, Nat.zero_testBit]
    cases hm : m.testBit i
    · simp
    · simp [h i hm]

/-- A flag word masked by 416 takes one of exactly eight values, one per
subset of the bits {REFLECTIVE, TRANSPARENT, DECAL}. -/
theorem and_416_cases (fl : Nat) :
    fl &&& 416 ∈ [0, 32, 128, 160, 256, 288, 384, 416] := by
  have h416 : (416 : Nat) = 256 ||| (128 ||| 32) := by decide
  have h8 := Nat.and_two_pow fl 8
  have h7 := Nat.and_two_pow fl 7
  have h5 := Nat.and_two_pow fl 5
  norm_num at h8 h7 h5
  rw [h416, Nat.and_or_distrib_left, Nat.and_or_distrib_left, h8, h7, h5]
  rcases fl.testBit 8 <;> rcases fl.testBit 7 <;> rcases fl.testBit 5 <;>
    simp [List.mem_cons]

/-- C1: for every material flag word (the particle flag clear, as the claim
assumes — the proof does not need it), exactly one of the five bucket
predicates `isReflective`, `isOpaque`, `isOpaqueDecal`, `isTransparentDecal`,
`isTransparent` returns true, where each predicate is `test` on an
include/exclude mask pair and `test` returns true iff all bits of the
include mask are set and no bit of the exclude mask is set in the flag
word. -/
theorem C1_bucket_exclusive_exhaustive (fl : Nat)
    (_hp : fl &&& Mtrl.PARTICLE = 0) :
    (Mtrl.bucketTests fl).count true = 1 ∧
    ∀ rules : Mtrl.Rules, Mtrl.test fl rules = true ↔
      ((∀ i, rules.inc.testBit i = true → fl.testBit i = true) ∧
       (∀ i, rules.ex.testBit i = true → fl.testBit i = false)) := by
  constructor
  · rw [bucketTests_and_416 fl]
    have h := and_416_cases fl
    simp only [List.mem_cons, List.not_mem_nil, or_false] at h
    rcases h with h | h | h | h | h | h | h | h <;> rw [h] <;> decide
  · intro rules
    unfold Mtrl.test
    rw [Bool.and_eq_true, beq_iff_eq, beq_iff_eq,
      and_eq_self_iff_superset, and_eq_zero_iff_disjoint]

/-- Witness for C1 at the concrete flag word `DECAL ||| TRANSPARENT` (= 160):
the particle flag is clear and exactly one bucket test holds. -/
theorem C1_bucket_exclusive_exhaustive_witness :
    (160 : Nat) &&& Mtrl.PARTICLE = 0 ∧
      (Mtrl.bucketTests 160).count true = 1 :=
  ⟨by decide, (C1_bucket_exclusive_exhaustive 160 (by decide)).1⟩

/-! ### Material state — `src/js/mtrl.js` lines 7–20 -/

/-- The mutable state of a `Mtrl` object.  Color channels are 4-float
arrays (modelled over `ℚ`), `fl` the flag word, `f` the material name,
`tex` the GL texture handle (presence only), and `loading` the
`_loading` property (absent ⇒ `false`, set by `loadTexture`, deleted on
completion). -/
structure MtrlState where
  d : List ℚ
  a : List ℚ
  s : List ℚ
  e : List ℚ
  h : ℚ
  fl : Nat
  f : String
  alpha_func : Nat
  alpha_ref : ℚ
  tex : Option Unit
  loading : Bool
deriving DecidableEq

/-- The `Mtrl` constructor (`src/js/mtrl.js` lines 7–20).  It declares no
parameter, so the decoded material record passed at the call site
(`new Mtrl(sol.mv[i])` in `solid-model.js`) is ignored; modelled by a
polymorphic ignored argument. -/
def mkMtrl {α : Type} (_mtrl : α) : MtrlState :=
  { d := [4/5, 4/5, 4/5, 1]
    a := [1/5, 1/5, 1/5, 1]
    s := [0, 0, 0, 1]
    e := [0, 0, 0, 1]
    h := 0
    fl := 0
    f := ""
    alpha_func := 0
    alpha_ref := 0
    tex := none
    loading := false }

/-- C10: the `Mtrl` constructor ignores the decoded record passed to it —
any two records (of any types) produce the same state, whose fields are the
fixed defaults (flag word 0, empty name, alpha function 0, no texture, the
default colors and shininess) — and the resulting flag word satisfies the
opaque bucket predicate. -/
theorem C10_constructor_ignores_record {α β : Type} (r₁ : α) (r₂ : β) :
    mkMtrl r₁ = mkMtrl r₂ ∧
    (mkMtrl r₁).fl = 0 ∧
    (mkMtrl r₁).f = "" ∧
    (mkMtrl r₁).alpha_func = 0 ∧
    (mkMtrl r₁).tex = none ∧
    (mkMtrl r₁).d = [4/5, 4/5, 4/5, 1] ∧
    (mkMtrl r₁).a = [1/5, 1/5, 1/5, 1] ∧
    (mkMtrl r₁).s = [0, 0, 0, 1] ∧
    (mkMtrl r₁).e = [0, 0, 0, 1] ∧
    (mkMtrl r₁).h = 0 ∧
    Mtrl.isOpaque (mkMtrl r₁).fl = true := by
  refine ⟨rfl, ?_⟩
  unfold mkMtrl
  refine ⟨rfl, rfl, rfl, rfl, rfl, rfl, rfl, rfl, rfl, by decide⟩

/-! ### Shader variant builder — second unit bundled in `src/js/mtrl.js`
(lines 174–443 of the packed file) -/

namespace Shader

def LIT : Nat := 1 <<< 0
def ENVIRONMENT : Nat := 1 <<< 1
/-- `Shader.ALPHA_TEST = (7 << 2)`: three bits holding a number in `[1, 7]`. -/
def ALPHA_TEST : Nat := 7 <<< 2

def alphaFuncFromShaderFlags (flags : Nat) : Nat := (flags >>> 2) &&& 0x7
def shaderFlagsFromAlphaFunc (index : Nat) : Nat := (index &&& 0x7) <<< 2

/-- Alpha function snippets by index; index 0 (`always`) means no alpha
test and has no snippet (`undefined` in the source array). -/
def alphaFuncSnippets : List (Option String) :=
  [none, some "testEqual", some "testGequal", some "testGreater",
   some "testLequal", some "testLess", some "testNever", some "testNotEqual"]

/-- `Mtrl.LIT` is read by `shaderFlagsFromMtrl` but `mtrl.js` defines no
`LIT` flag; the JS property access yields `undefined`, and
`fl & undefined` coerces to `fl & 0 = 0`.  Modelled as the mask 0. -/
def mtrlLITjs : Nat := 0

/-- `mtrl.alphaFunc` as read by `shaderFlagsFromMtrl`.  The `Mtrl`
constructor defines the field `alpha_func`, not `alphaFunc`, and no code in
the repository assigns `alphaFunc`; the JS property access yields
`undefined`, and `(undefined & 0x7) << 2` coerces to 0.  Modelled as the
constant 0 (the material's actual `alpha_func` field is never consulted). -/
def alphaFuncJs (_m : MtrlState) : Nat := 0

/-- `shaderFlagsFromMtrl` (packed `mtrl.js` lines 294–310). -/
def shaderFlagsFromMtrl (m : MtrlState) : Nat :=
  (if m.fl &&& mtrlLITjs ≠ 0 then LIT else 0) |||
  (if m.fl &&& Mtrl.ALPHA_TEST ≠ 0 then shaderFlagsFromAlphaFunc (alphaFuncJs m)
   else 0) |||
  (if m.fl &&& ENVIRONMENT' ≠ 0 then ENVIRONMENT else 0)
where
  /-- `Mtrl.ENVIRONMENT` as read from the material flag word. -/
  ENVIRONMENT' : Nat := Mtrl.ENVIRONMENT

/-- The fragment-stage pipeline assembled by the `Shader` builder, as the
ordered list of snippet keys piped into the graph (packed `mtrl.js`
lines 204–230): lit branch, optional alpha-test snippet pair, final color
write. -/
def fragPipeline (shaderFlags : Nat) : List String :=
  (if shaderFlags &&& LIT ≠ 0 then
    ["frag.getTexCoord", "sampleTexture", "frag.getLightColor", "multiply"]
   else
    ["frag.getTexCoord", "sampleTexture"]) ++
  (if shaderFlags &&& ALPHA_TEST ≠ 0 then
    match alphaFuncSnippets.getD (alphaFuncFromShaderFlags shaderFlags) none with
    | some snippet => [snippet, "frag.alphaTest"]
    | none => []
   else []) ++
  ["frag.setFragColor"]

/-- The snippet names the claim expects for selectors 1–7. -/
def claimedSnippetFor : Nat → Option String
  | 1 => some "testEqual"
  | 2 => some "testGequal"
  | 3 => some "testGreater"
  | 4 => some "testLequal"
  | 5 => some "testLess"
  | 6 => some "testNever"
  | 7 => some "testNotEqual"
  | _ => none

end Shader

/-- A concrete material with the alpha-test flag set and alpha function
selector 3 (`greater`): the `Mtrl` defaults with `fl := ALPHA_TEST`,
`alpha_func := 3`. -/
def mtrlAlpha3 : MtrlState :=
  { mkMtrl () with fl := Mtrl.ALPHA_TEST, alpha_func := 3 }

/-- C2 (code evaluation at the failing input): for the material with the
alpha-test flag set and alpha-test selector `alpha_func = 3`, the claim
expects the `testGreater` snippet to be injected (and the snippet table
indeed maps 3 to `testGreater`), but `shaderFlagsFromMtrl` reads the
non-existent property `alphaFunc` (the field is `alpha_func`), so the
computed shader flags are 0 and the assembled fragment pipeline contains
no alpha-test snippet at all. -/
theorem C2_alpha_test_selector_dead :
    mtrlAlpha3.fl &&& Mtrl.ALPHA_TEST ≠ 0 ∧
    mtrlAlpha3.alpha_func = 3 ∧
    Shader.claimedSnippetFor 3 = some "testGreater" ∧
    Shader.alphaFuncSnippets.getD 3 none = some "testGreater" ∧
    Shader.shaderFlagsFromMtrl mtrlAlpha3 = 0 ∧
    Shader.fragPipeline (Shader.shaderFlagsFromMtrl mtrlAlpha3) =
      ["frag.getTexCoord", "sampleTexture", "frag.setFragColor"] ∧
    "testGreater" ∉ Shader.fragPipeline (Shader.shaderFlagsFromMtrl mtrlAlpha3) ∧
    "frag.alphaTest" ∉ Shader.fragPipeline (Shader.shaderFlagsFromMtrl mtrlAlpha3) := by
  refine ⟨by decide, rfl, rfl, rfl, by decide, by decide, by decide, by decide⟩

/-! ### Texture loading — `src/js/mtrl.js` lines 147–167 -/

/-- A record of externally visible effects of a `loadTexture` call: the
image fetches it issues. -/
inductive LoadEff
  | fetchImage (name : String)
deriving DecidableEq

/-- `Mtrl.prototype.loadTexture`.  `known` models the `mtrlImages` name
table (`mtrl-images.json`, keyed by the material's name `this.f` via its
`toString`): `known n = true` iff the table has an entry for `n`.  Returns
the new material state and the list of fetches issued.  The first three
branches return without touching the material (the second and third also
log a message); otherwise `_loading` is set before the fetch is issued. -/
def loadTexture (known : String → Bool) (m : MtrlState) :
    MtrlState × List LoadEff :=
  if m.loading then (m, [])
  else if m.tex.isSome then (m, [])               -- 'already been loaded'
  else if !(known m.f) then (m, [])               -- 'is unknown'
  else ({ m with loading := true }, [LoadEff.fetchImage m.f])

/-- The fetch completion callback: `createTexture` stores the new GL
texture in `tex`, then `delete self._loading` clears the pending flag. -/
def completeLoad (m : MtrlState) : MtrlState :=
  { m with tex := some (), loading := false }

/-- C6: a texture-load request is a no-op (no fetch, material unchanged)
when a load is pending, a texture exists, or the material name is unknown;
otherwise it sets the pending flag and issues exactly one fetch, a second
request issued before completion is a no-op, and completion clears the
pending flag. -/
theorem C6_load_texture_idempotent (known : String → Bool) (m : MtrlState) :
    (m.loading = true → loadTexture known m = (m, [])) ∧
    (m.tex.isSome = true → loadTexture known m = (m, [])) ∧
    (known m.f = false → loadTexture known m = (m, [])) ∧
    (m.loading = false → m.tex = none → known m.f = true →
      (loadTexture known m).1 = { m with loading := true } ∧
      (loadTexture known m).2 = [LoadEff.fetchImage m.f] ∧
      loadTexture known (loadTexture known m).1 =
        ((loadTexture known m).1, []) ∧
      (completeLoad (loadTexture known m).1).loading = false) := by
  refine ⟨?_, ?_, ?_, ?_⟩
  · intro h1; simp [loadTexture, h1]
  · intro h2; simp [loadTexture, h2]
  · intro h3
    by_cases h1 : m.loading
    · simp [loadTexture, h1]
    · by_cases h2 : m.tex.isSome
      · simp [loadTexture, h1, h2]
      · simp [loadTexture, h1, h2, h3]
  · intro h1 h2 h3
    simp [loadTexture, h1, h2, h3, completeLoad]

/-- Witness for C6 at a concrete fresh material named "mtrl/invisible"
known to the image table: the pending flag is set, exactly one fetch is
issued, the second request is a no-op, and completion clears the flag. -/
theorem C6_load_texture_idempotent_witness :
    (loadTexture (fun n => n == "mtrl/invisible")
        { mkMtrl () with f := "mtrl/invisible" }).1
      = { mkMtrl () with f := "mtrl/invisible", loading := true } ∧
    (loadTexture (fun n => n == "mtrl/invisible")
        { mkMtrl () with f := "mtrl/invisible" }).2
      = [LoadEff.fetchImage "mtrl/invisible"] := by
  have h := C6_load_texture_idempotent (fun n => n == "mtrl/invisible")
    { mkMtrl () with f := "mtrl/invisible" }
  have h4 := h.2.2.2 (by decide) (by decide) (by decide)
  exact ⟨h4.1, h4.2.1⟩

/-! ### Mesh — `src/unnamed/part_000` -/

/-- `Mesh.stride = (3 + 3 + 2)`: position, normal, texcoord floats per
vertex. -/
def Mesh.stride : Nat := 3 + 3 + 2

/-- The state of a `Mesh` object: its material reference, the interleaved
vertex buffer (a `Float32Array`; the unallocated `null` buffer of a
zero-count mesh is modelled as the empty list), the running vertex count,
and the GPU buffer handle created by `createVBO` (absent until then). -/
structure Mesh where
  mtrl : MtrlState
  verts : List ℚ
  count : Nat
  vbo : Option Unit
deriving DecidableEq

/-- The `Mesh` constructor: pre-sizes the vertex buffer to
`stride * count` floats (zero-initialised, as `Float32Array` is) and
starts the running count at 0. -/
def mkMesh (count : Nat) (mtrl : MtrlState) : Mesh :=
  { mtrl := mtrl
    verts := List.replicate (Mesh.stride * count) 0
    count := 0
    vbo := none }

/-- `Mesh.prototype.createVBO`: one-shot upload producing the buffer
handle. -/
def Mesh.createVBO (m : Mesh) : Mesh := { m with vbo := some () }

/-! ### GL call traces for material application and mesh drawing -/

/-- The GL calls issued by `Mtrl.prototype.draw` and
`Mesh.prototype.draw`, in order. -/
inductive GLEvent
  | bindTexture (mtrlTex : Bool)     -- false = default texture bound
  | uniform4fv (name : String)
  | uniform1f (name : String)
  | uniform1i (name : String) (v : Nat)
  | blendFunc (additive : Bool)
  | cullFaceEnable (enabled : Bool)
  | polygonOffsetFill (enabled : Bool)
  | polygonOffset (factor units : ℚ)
  | enableArrays
  | bindBuffer
  | vertexAttribPointers
  | drawArrays (count : Nat)
deriving DecidableEq

/-- `Mtrl.prototype.draw` (`src/js/mtrl.js` lines 100–142) as the ordered
list of GL calls it issues: texture binding (the material texture only when
textures are enabled and one is loaded, else the default texture), the four
color uniforms and shininess, the environment toggle, the blend function,
face culling, and decal polygon offset. -/
def mtrlDraw (enableTextures : Bool) (m : MtrlState) : List GLEvent :=
  [GLEvent.bindTexture (enableTextures && m.tex.isSome),
   GLEvent.uniform4fv "uDiffuse",
   GLEvent.uniform4fv "uAmbient",
   GLEvent.uniform4fv "uSpecular",
   GLEvent.uniform4fv "uEmissive",
   GLEvent.uniform1f "uShininess",
   GLEvent.uniform1i "uEnvironment"
     (if m.fl &&& Mtrl.ENVIRONMENT ≠ 0 then 1 else 0),
   GLEvent.blendFunc (m.fl &&& Mtrl.ADDITIVE ≠ 0),
   GLEvent.cullFaceEnable (!(m.fl &&& Mtrl.TWO_SIDED ≠ 0))] ++
  (if m.fl &&& Mtrl.DECAL ≠ 0 then
    [GLEvent.polygonOffsetFill true, GLEvent.polygonOffset (-1) (-2)]
   else
    [GLEvent.polygonOffset 0 0, GLEvent.polygonOffsetFill false])

/-- `Mesh.prototype.draw` (`src/unnamed/part_000` lines 41–57): applies the
material state, then — only if the VBO exists — sets up the vertex arrays
and issues the `drawArrays` call over `count` vertices. -/
def meshDraw (enableTextures : Bool) (mesh : Mesh) : List GLEvent :=
  mtrlDraw enableTextures mesh.mtrl ++
  (if mesh.vbo.isSome then
    [GLEvent.enableArrays, GLEvent.bindBuffer, GLEvent.vertexAttribPointers,
     GLEvent.drawArrays mesh.count]
   else [])

/-- Drawing a sequence of meshes concatenates their individual traces. -/
def sceneDraw (enableTextures : Bool) (meshes : List Mesh) : List GLEvent :=
  meshes.flatMap (meshDraw enableTextures)

/-- `mtrlDraw` never issues a `drawArrays` call. -/
theorem drawArrays_not_mem_mtrlDraw (et : Bool) (m : MtrlState) (c : Nat) :
    GLEvent.drawArrays c ∉ mtrlDraw et m := by
  intro h
  by_cases hd : m.fl &&& Mtrl.DECAL ≠ 0 <;> simp [mtrlDraw, hd] at h

/-- A concrete mesh whose VBO is uploaded but whose material has no
texture loaded: 3 vertices, default material. -/
def meshNoTex : Mesh :=
  { mtrl := mkMtrl ()
    verts := List.replicate (Mesh.stride * 3) 0
    count := 3
    vbo := some () }

/-- C7 counterexample: the claim says the draw call is skipped when the
material's texture was never loaded, but for `meshNoTex` (texture never
loaded, VBO present) `Mesh.draw` does issue its `drawArrays` call — the
material draw merely falls back to binding the default texture. -/
theorem C7_counterexample_missing_texture_still_draws :
    meshNoTex.mtrl.tex = none ∧
    GLEvent.drawArrays 3 ∈ meshDraw true meshNoTex ∧
    GLEvent.bindTexture false ∈ meshDraw true meshNoTex := by
  refine ⟨rfl, by decide, by decide⟩

/-- C7 (amended): a missing VBO skips the element's `drawArrays` (the trace
degenerates to the material application alone); a present VBO always draws
`count` vertices, with a missing material texture only causing the default
texture to be bound; and each element's trace is unaffected by the other
elements drawn around it. -/
theorem C7_missing_resource_skips_draw (et : Bool) (mesh : Mesh) :
    (mesh.vbo = none →
      meshDraw et mesh = mtrlDraw et mesh.mtrl ∧
      ∀ c, GLEvent.drawArrays c ∉ meshDraw et mesh) ∧
    (mesh.vbo.isSome = true →
      GLEvent.drawArrays mesh.count ∈ meshDraw et mesh) ∧
    (mesh.mtrl.tex = none →
      GLEvent.bindTexture false ∈ meshDraw et mesh) ∧
    (∀ pre post : List Mesh,
      sceneDraw et (pre ++ mesh :: post) =
        sceneDraw et pre ++ meshDraw et mesh ++ sceneDraw et post) := by
  refine ⟨?_, ?_, ?_, ?_⟩
  · intro h
    have he : meshDraw et mesh = mtrlDraw et mesh.mtrl := by
      simp [meshDraw, h]
    refine ⟨he, ?_⟩
    intro c hc
    rw [he] at hc
    exact drawArrays_not_mem_mtrlDraw et mesh.mtrl c hc
  · intro h
    simp [meshDraw, h]
  · intro h
    simp [meshDraw, mtrlDraw, h]
  · intro pre post
    simp [sceneDraw, List.flatMap_append]

/-- Witness for C7 (amended) at concrete meshes: a VBO-less mesh's trace
has no `drawArrays` and equals its material trace, while `meshNoTex`
draws. -/
theorem C7_missing_resource_skips_draw_witness :
    meshDraw true { meshNoTex with vbo := none }
      = mtrlDraw true (mkMtrl ()) ∧
    GLEvent.drawArrays 0 ∉ meshDraw true { meshNoTex with vbo := none } ∧
    GLEvent.drawArrays 3 ∈ meshDraw true meshNoTex ∧
    sceneDraw true ([] ++ meshNoTex :: [])
      = sceneDraw true [] ++ meshDraw true meshNoTex ++ sceneDraw true [] := by
  have h1 := C7_missing_resource_skips_draw true { meshNoTex with vbo := none }
  have h2 := C7_missing_resource_skips_draw true meshNoTex
  exact ⟨(h1.1 rfl).1, (h1.1 rfl).2 0, h2.2.1 rfl, h2.2.2.2 [] []⟩

/-! ### Vertex packing — `Mesh.prototype.addVertFromSol` -/

/-- A raw source vertex: position, normal, texture coordinates. -/
structure SolVert where
  p : ℚ × ℚ × ℚ
  n : ℚ × ℚ × ℚ
  t : ℚ × ℚ
deriving DecidableEq, Inhabited

/-- Modelled from the spec: `sol.getVert(vert, offs)` (the sol decoder is
not under `src/`) writes one packed vertex record into the target slice —
3 position, 3 normal, 2 texcoord floats, the layout fixed by `Mesh.stride`
and the attribute pointer offsets 0, 12, 24 in `Mesh.prototype.draw`. -/
def getVert (v : SolVert) : List ℚ :=
  [v.p.1, v.p.2.1, v.p.2.2, v.n.1, v.n.2.1, v.n.2.2, v.t.1, v.t.2]

/-- `Mesh.prototype.addVertFromSol`: writes the source vertex at index
`offs` into the `stride`-wide slice starting at `count * stride` (the
`subarray` view), then increments the running count. -/
def addVertFromSol (sol : List SolVert) (offs : Nat) (m : Mesh) : Mesh :=
  { m with
    verts :=
      m.verts.take (m.count * Mesh.stride) ++
      getVert (sol.getD offs default) ++
      m.verts.drop (m.count * Mesh.stride + Mesh.stride)
    count := m.count + 1 }

/-- Appending a sequence of source vertices (by offset) through the
packer. -/
def packVerts (sol : List SolVert) (m : Mesh) (offsets : List Nat) : Mesh :=
  offsets.foldl (fun acc o => addVertFromSol sol o acc) m

/-- Packing a whole sol vertex table, in order, into a mesh pre-sized to
its vertex count (as the scene builder does per body mesh). -/
def packMesh (sol : List SolVert) : Mesh :=
  packVerts sol (mkMesh sol.length (mkMtrl ())) (List.range sol.length)

/-- Reading one interleaved vertex record back out of the packed buffer. -/
def readVert (m : Mesh) (i : Nat) : List ℚ :=
  (m.verts.drop (i * Mesh.stride)).take Mesh.stride

/-- Decoding an 8-float interleaved record back into a raw vertex. -/
def unpackVert (l : List ℚ) : SolVert :=
  { p := (l.getD 0 0, l.getD 1 0, l.getD 2 0)
    n := (l.getD 3 0, l.getD 4 0, l.getD 5 0)
    t := (l.getD 6 0, l.getD 7 0) }

theorem length_getVert (v : SolVert) : (getVert v).length = Mesh.stride := rfl

theorem unpackVert_getVert (v : SolVert) : unpackVert (getVert v) = v := by
  obtain ⟨⟨a, b, c⟩, ⟨d, e, f⟩, ⟨g, h⟩⟩ := v
  rfl

theorem length_flatMap_getVert (l : List SolVert) :
    (l.flatMap getVert).length = Mesh.stride * l.length := by
  induction l with
  | nil => simp
  | cons v rest ih =>
    simp only [List.flatMap_cons, List.length_append, ih, length_getVert,
      List.length_cons]
    ring

/-- The packing invariant: with `a` vertices already packed and room for
`b` more, packing offsets `a, a+1, …, a+b-1` fills the rest of the
buffer. -/
theorem packVerts_invariant (sol : List SolVert) (mtrl : MtrlState)
    (vbo : Option Unit) :
    ∀ (b a : Nat), a + b = sol.length →
      packVerts sol
        { mtrl := mtrl
          verts := (sol.take a).flatMap getVert ++
            List.replicate (Mesh.stride * (sol.length - a)) 0
          count := a
          vbo := vbo }
        (List.range' a b) =
      { mtrl := mtrl, verts := sol.flatMap getVert, count := sol.length
        vbo := vbo } := by
  intro b
  induction b with
  | zero =>
    intro a ha
    simp only [Nat.add_zero] at ha
    subst ha
    simp [packVerts, List.take_length]
  | succ b ih =>
    intro a ha
    have haL : a < sol.length := by omega
    have hrange : List.range' a (b + 1) = a :: List.range' (a + 1) b := by
      simpa using List.range'_succ a b 1
    rw [hrange]
    show packVerts sol (addVertFromSol sol a _) (List.range' (a + 1) b) = _
    have hstep : addVertFromSol sol a
        { mtrl := mtrl
          verts := (sol.take a).flatMap getVert ++
            List.replicate (Mesh.stride * (sol.length - a)) 0
          count := a
          vbo := vbo } =
        { mtrl := mtrl
          verts := (sol.take (a + 1)).flatMap getVert ++
            List.replicate (Mesh.stride * (sol.length - (a + 1))) 0
          count := a + 1
          vbo := vbo } := by
      unfold addVertFromSol
      have hlen : ((sol.take a).flatMap getVert).length = a * Mesh.stride := by
        rw [length_flatMap_getVert, List.length_take]
        rw [Nat.min_eq_left (Nat.le_of_lt haL)]
        ring
      have htake :
          (((sol.take a).flatMap getVert ++
            List.replicate (Mesh.stride * (sol.length - a)) 0).take
              (a * Mesh.stride)) = (sol.take a).flatMap getVert := by
        rw [← hlen]
        exact List.take_left _ _
      have hdrop :
          (((sol.take a).flatMap getVert ++
            List.replicate (Mesh.stride * (sol.length - a)) 0).drop
              (a * Mesh.stride + Mesh.stride)) =
            List.replicate (Mesh.stride * (sol.length - (a + 1))) 0 := by
        rw [← hlen, List.drop_append, List.drop_replicate]
        congr 1
        show Mesh.stride * (sol.length - a) - Mesh.stride
          = Mesh.stride * (sol.length - (a + 1))
        unfold Mesh.stride
        omega
      have hget : sol.getD a default = sol[a] := List.getD_eq_getElem sol default haL
      have htakesucc : (sol.take (a + 1)).flatMap getVert =
          (sol.take a).flatMap getVert ++ getVert sol[a] := by
        have h1 : sol.take (a + 1) = sol.take a ++ [sol[a]] := by
          rw [List.take_succ]
          have hsome : sol[a]? = some sol[a] := List.getElem?_eq_getElem haL
          rw [hsome]
          rfl
        rw [h1, List.flatMap_append, List.flatMap_cons]
        simp
      simp only [htake, hdrop, hget, htakesucc, List.append_assoc]
    rw [hstep]
    exact ih (a + 1) (by omega)

/-- Packing a whole sol table yields exactly the flattened vertex data. -/
theorem packMesh_eq (sol : List SolVert) :
    packMesh sol =
      { mtrl := mkMtrl (), verts := sol.flatMap getVert
        count := sol.length, vbo := none } := by
  have h := packVerts_invariant sol (mkMtrl ()) none sol.length 0 (by omega)
  simpa [packMesh, mkMesh, List.range_eq_range'] using h

/-- Dropping `i` whole records from a flattened table lands on record
`i`. -/
theorem flatMap_getVert_drop (sol : List SolVert) :
    ∀ i, (h : i < sol.length) →
      (sol.flatMap getVert).drop (i * Mesh.stride) =
        getVert sol[i] ++ (sol.drop (i + 1)).flatMap getVert := by
  induction sol with
  | nil => intro i h; simp at h
  | cons v rest ih =>
    intro i h
    cases i with
    | zero => simp [List.flatMap_cons]
    | succ j =>
      have hj : j < rest.length := by simpa using h
      have hdecomp : (j + 1) * Mesh.stride = Mesh.stride + j * Mesh.stride := by
        ring
      rw [List.flatMap_cons, hdecomp, ← List.drop_drop]
      have h8 : (getVert v ++ rest.flatMap getVert).drop Mesh.stride =
          rest.flatMap getVert := by
        simp [length_getVert]
      rw [h8, ih j hj]
      simp

/-- C9: packing the `N` source vertices of a sol table through the vertex
packer produces an interleaved buffer of exactly `N × 8` floats with the
running count equal to `N`, and reading any record back yields the original
position/normal/texcoord triple at the same index. -/
theorem C9_vertex_packer_round_trip (sol : List SolVert) :
    (packMesh sol).count = sol.length ∧
    (packMesh sol).verts.length = sol.length * 8 ∧
    ∀ i, (h : i < sol.length) →
      unpackVert (readVert (packMesh sol) i) = sol[i] := by
  rw [packMesh_eq]
  refine ⟨rfl, ?_, ?_⟩
  · rw [length_flatMap_getVert]
    unfold Mesh.stride
    ring
  · intro i h
    unfold readVert
    show unpackVert (((sol.flatMap getVert).drop (i * Mesh.stride)).take
      Mesh.stride) = sol[i]
    rw [flatMap_getVert_drop sol i h]
    have htake : ((getVert sol[i] ++ (sol.drop (i + 1)).flatMap getVert).take
        Mesh.stride) = getVert sol[i] := by
      simp [length_getVert]
    rw [htake, unpackVert_getVert]

/-- Witness for C9 at a concrete two-vertex table. -/
theorem C9_vertex_packer_round_trip_witness :
    (packMesh [⟨(1, 2, 3), (0, 1, 0), (4, 5)⟩,
               ⟨(6, 7, 8), (1, 0, 0), (9, 10)⟩]).count = 2 ∧
    (packMesh [⟨(1, 2, 3), (0, 1, 0), (4, 5)⟩,
               ⟨(6, 7, 8), (1, 0, 0), (9, 10)⟩]).verts.length = 16 ∧
    unpackVert (readVert (packMesh [⟨(1, 2, 3), (0, 1, 0), (4, 5)⟩,
               ⟨(6, 7, 8), (1, 0, 0), (9, 10)⟩]) 1)
      = ⟨(6, 7, 8), (1, 0, 0), (9, 10)⟩ := by
  have h := C9_vertex_packer_round_trip
    [⟨(1, 2, 3), (0, 1, 0), (4, 5)⟩, ⟨(6, 7, 8), (1, 0, 0), (9, 10)⟩]
  exact ⟨h.1, h.2.1, h.2.2 1 (by decide)⟩

/-! ### Draw-bodies pass order — `SolidModel.prototype.drawBodies`
(`src/src/solid-model.js` lines 320–340) -/

/-- The five mesh-type buckets, named as in the `drawMeshType` calls. -/
inductive MeshType
  | reflective | opaquePlain | opaqueDecal | transparentDecal | transparent
deriving DecidableEq

/-- The observable actions of `drawBodies`: a bucket draw pass, a depth-test
toggle (`gl.enable`/`gl.disable(gl.DEPTH_TEST)`), or a depth-mask write. -/
inductive DrawEvent
  | pass (t : MeshType)
  | depthTest (enabled : Bool)
  | depthMask (flag : Bool)
deriving DecidableEq

/-- `SolidModel.prototype.drawBodies`, as the ordered list of actions it
performs given the scene's `transparentDepthTest` / `transparentDepthMask`
configuration (`const test`/`const mask` in the source). -/
def drawBodies (test mask : Bool) : List DrawEvent :=
  [DrawEvent.pass MeshType.reflective,
   DrawEvent.pass MeshType.opaquePlain,
   DrawEvent.pass MeshType.opaqueDecal] ++
  (if !test then [DrawEvent.depthTest false] else []) ++
  (if !mask then [DrawEvent.depthMask false] else []) ++
  [DrawEvent.pass MeshType.transparentDecal,
   DrawEvent.pass MeshType.transparent] ++
  (if !mask then [DrawEvent.depthMask true] else []) ++
  (if !test then [DrawEvent.depthTest true] else [])

/-- The GL depth state (depth-test enabled, depth-mask on) after one
action. -/
def depthStateAfter (s : Bool × Bool) : DrawEvent → Bool × Bool
  | DrawEvent.depthTest b => (b, s.2)
  | DrawEvent.depthMask b => (s.1, b)
  | DrawEvent.pass _ => s

/-- Each draw pass of a trace paired with the depth state it runs under,
starting from state `s`. -/
def passesUnder (s : Bool × Bool) : List DrawEvent → List (MeshType × (Bool × Bool))
  | [] => []
  | DrawEvent.pass t :: rest => (t, s) :: passesUnder s rest
  | e :: rest => passesUnder (depthStateAfter s e) rest

/-- C3: for every depth configuration, `drawBodies` issues exactly the five
bucket passes in the order reflective, opaque, opaque-decal,
transparent-decal, transparent; the first three run under the full depth
state (test on, mask on), the last two run exactly under the configured
`(test, mask)` state (i.e. the overrides, when configured off, take effect
immediately before the transparent-decal pass), and the depth state is
restored to (on, on) after the whole sequence. -/
theorem C3_draw_bodies_order (test mask : Bool) :
    passesUnder (true, true) (drawBodies test mask) =
      [(MeshType.reflective, (true, true)),
       (MeshType.opaquePlain, (true, true)),
       (MeshType.opaqueDecal, (true, true)),
       (MeshType.transparentDecal, (test, mask)),
       (MeshType.transparent, (test, mask))] ∧
    (drawBodies test mask).foldl depthStateAfter (true, true) = (true, true) := by
  rcases test <;> rcases mask <;> exact ⟨rfl, rfl⟩

/-! ### Step phase — `SolidModel.prototype.step`
(`src/src/solid-model.js` lines 240–269) -/

/-- Modelled from the spec: the mover collaborator (`mover.js`, not under
`src/`) exposes `step(dt)`; its state here records the `step(dt)` calls
received, newest first — the "step counter on a test mover" of spec §8. -/
structure Mover where
  dts : List ℚ
deriving DecidableEq

def Mover.step (dt : ℚ) (m : Mover) : Mover := ⟨dt :: m.dts⟩

/-- The `Movers` component: references to a translate mover and a rotate
mover.  JS object references are modelled as indices into a mover heap;
reference identity (`===`) is index equality. -/
structure Movers where
  translate : Nat
  rotate : Nat
deriving DecidableEq

abbrev MoverHeap := Nat → Mover

def stepMoverAt (dt : ℚ) (h : MoverHeap) (i : Nat) : MoverHeap :=
  fun j => if j = i then Mover.step dt (h j) else h j

/-- The mover-update portion of the per-entity loop body of
`SolidModel.prototype.step`: when translate and rotate reference the same
mover it is stepped once, otherwise each is stepped once.  (The subsequent
`getPosition`/`getOrientation`/`mat4.fromRotationTranslation` refresh reads
mover state but does not advance it.) -/
def stepEntityMovers (dt : ℚ) (h : MoverHeap) (mv : Movers) : MoverHeap :=
  if mv.translate = mv.rotate then
    stepMoverAt dt h mv.translate
  else
    stepMoverAt dt (stepMoverAt dt h mv.translate) mv.rotate

/-- One step of the scene by `dt`: the loop over the entities carrying
Spatial + ModelMatrix + Movers. -/
def sceneStepMovers (dt : ℚ) (h : MoverHeap) (ents : List Movers) : MoverHeap :=
  ents.foldl (fun acc mv => stepEntityMovers dt acc mv) h

/-- C4: stepping a scene holding an entity advances the entity's shared
mover exactly once (one `step(dt)` call) when the translate and rotate
references are the same instance, and advances each of the two movers
exactly once when they are distinct instances; movers not referenced by the
entity are untouched. -/
theorem C4_movers_stepped_once (dt : ℚ) (h : MoverHeap) (mv : Movers) :
    (mv.translate = mv.rotate →
      (sceneStepMovers dt h [mv] mv.translate).dts =
        dt :: (h mv.translate).dts ∧
      ∀ j, j ≠ mv.translate → sceneStepMovers dt h [mv] j = h j) ∧
    (mv.translate ≠ mv.rotate →
      (sceneStepMovers dt h [mv] mv.translate).dts =
        dt :: (h mv.translate).dts ∧
      (sceneStepMovers dt h [mv] mv.rotate).dts = dt :: (h mv.rotate).dts ∧
      ∀ j, j ≠ mv.translate → j ≠ mv.rotate →
        sceneStepMovers dt h [mv] j = h j) := by
  have hscene : sceneStepMovers dt h [mv] = stepEntityMovers dt h mv := rfl
  rw [hscene]
  constructor
  · intro heq
    constructor
    · simp [stepEntityMovers, heq, stepMoverAt, Mover.step]
    · intro j hj
      have hj' : j ≠ mv.rotate := heq ▸ hj
      simp [stepEntityMovers, heq, stepMoverAt, hj, hj']
  · intro hne
    refine ⟨?_, ?_, ?_⟩
    · simp [stepEntityMovers, hne, stepMoverAt, Mover.step, Ne.symm hne]
    · simp [stepEntityMovers, hne, stepMoverAt, Mover.step, Ne.symm hne]
    · intro j hjt hjr
      simp [stepEntityMovers, hne, stepMoverAt, hjt, hjr]

/-- Witness for C4: on a fresh heap, the shared-mover entity `⟨0, 0⟩` leaves
its mover with exactly one recorded step (not two), the distinct-mover
entity `⟨0, 1⟩` steps each of its movers once, and an unrelated mover is
untouched. -/
theorem C4_movers_stepped_once_witness :
    (sceneStepMovers 1 (fun _ => ⟨[]⟩) [⟨0, 0⟩] 0).dts = [(1 : ℚ)] ∧
    (sceneStepMovers 1 (fun _ => ⟨[]⟩) [⟨0, 1⟩] 0).dts = [(1 : ℚ)] ∧
    (sceneStepMovers 1 (fun _ => ⟨[]⟩) [⟨0, 1⟩] 1).dts = [(1 : ℚ)] ∧
    (sceneStepMovers 1 (fun _ => ⟨[]⟩) [⟨0, 0⟩] 5).dts = [] := by
  have hshared := C4_movers_stepped_once 1 (fun _ => ⟨[]⟩) ⟨0, 0⟩
  have hdistinct := C4_movers_stepped_once 1 (fun _ => ⟨[]⟩) ⟨0, 1⟩
  refine ⟨(hshared.1 rfl).1, (hdistinct.2 (by decide)).1,
    (hdistinct.2 (by decide)).2.1, ?_⟩
  rw [(hshared.1 rfl).2 5 (by decide)]

/-! ### Scene building: items and balls — `SolidModel.fromSol`
(`src/src/solid-model.js` lines 157–220) -/

/-- The value held by a Spatial component's `scale` property.  The
component constructor initialises it to the vec3 `(1, 1, 1)`; JS lets later
code assign any value to the property, and the ball branch assigns a plain
number — so the model is a sum of the two value shapes that occur. -/
inductive ScaleVal
  | vec (v : ℚ × ℚ × ℚ)
  | num (r : ℚ)
deriving DecidableEq

/-- The `Spatial` component: `vec3.create()` position, `quat.create()`
identity orientation (x, y, z, w), `vec3.fromValues(1,1,1)` scale. -/
structure Spatial where
  position : ℚ × ℚ × ℚ
  orientation : ℚ × ℚ × ℚ × ℚ
  scale : ScaleVal
deriving DecidableEq

def mkSpatial : Spatial :=
  { position := (0, 0, 0), orientation := (0, 0, 0, 1)
    scale := ScaleVal.vec (1, 1, 1) }

/-- The `mat4.set` call shared verbatim by the item and ball branches: a
uniform scale `r` on the diagonal and the translation in column 3
(column-major, 16 entries). -/
def scaleTranslateMat (r x y z : ℚ) : List ℚ :=
  [r, 0, 0, 0,
   0, r, 0, 0,
   0, 0, r, 0,
   x, y, z, 1]

/-- A decoded item record: type, position, value. -/
structure SolItem where
  t : Nat
  p : ℚ × ℚ × ℚ
  n : Int
deriving DecidableEq

/-- A decoded ball record: position and radius. -/
structure SolBall where
  p : ℚ × ℚ × ℚ
  r : ℚ
deriving DecidableEq

/-- An item entity as created by the item loop. -/
structure ItemEntity where
  tags : List String
  item : Int
  spatial : Spatial
  modelMatrix : List ℚ
deriving DecidableEq

/-- A ball entity as created by the ball loop. -/
structure BallEntity where
  tags : List String
  spatial : Spatial
  modelMatrix : List ℚ
deriving DecidableEq

/-- `var itemTags = [null, 'coin', 'grow', 'shrink']` (out-of-range JS
indexing yields `undefined`, i.e. skip). -/
def itemTags : List (Option String) := [none, some "coin", some "grow", some "shrink"]

/-- The item loop body: items with an unknown type are skipped; otherwise
the entity is tagged `item` and the type tag, the Spatial scale and
position are set (radius fixed at `0.15`), and the ModelMatrix is the
uniform scale-then-translate matrix. -/
def itemEntityOf (solItem : SolItem) : Option ItemEntity :=
  match itemTags.getD solItem.t none with
  | none => none
  | some tag => some
      { tags := ["item", tag]
        item := solItem.n
        spatial := { mkSpatial with
          position := solItem.p
          scale := ScaleVal.vec (3/20, 3/20, 3/20) }
        modelMatrix :=
          scaleTranslateMat (3/20) solItem.p.1 solItem.p.2.1 solItem.p.2.2 }

/-- The ball loop body (`src/src/solid-model.js` lines 198–220): the entity
is tagged `ball`; `ent.spatial.scale = r` assigns the *scalar* radius to
the scale property (unlike the item branch's `vec3.set(scale, r, r, r)`),
the position is set from the record, and the ModelMatrix is the same
scale-then-translate construction as for items. -/
def ballEntityOf (solBall : SolBall) : BallEntity :=
  { tags := ["ball"]
    spatial := { mkSpatial with
      position := solBall.p
      scale := ScaleVal.num solBall.r }
    modelMatrix :=
      scaleTranslateMat solBall.r solBall.p.1 solBall.p.2.1 solBall.p.2.2 }

/-- C8 counterexample: for the decoded ball at position (1, 2, 3) with
radius 2, the created entity's Spatial scale is the scalar 2, not the
3-vector (2, 2, 2) the claim requires. -/
theorem C8_counterexample_ball_scale_scalar :
    (ballEntityOf ⟨(1, 2, 3), 2⟩).spatial.scale = ScaleVal.num 2 ∧
    (ballEntityOf ⟨(1, 2, 3), 2⟩).spatial.scale ≠ ScaleVal.vec (2, 2, 2) := by
  exact ⟨rfl, by decide⟩

/-- C8 (amended): for every decoded ball record the Scene Builder creates
one `ball`-tagged entity whose Spatial holds the ball's position as a
3-vector and whose `scale` property is assigned the *scalar* radius (not a
3-vector), and whose ModelMatrix is the same uniform scale-then-translate
matrix construction used for items (any item entity that is created gets
`scaleTranslateMat` at radius 0.15 of its position). -/
theorem C8_ball_entity (b : SolBall) :
    (ballEntityOf b).tags = ["ball"] ∧
    (ballEntityOf b).spatial.position = b.p ∧
    (ballEntityOf b).spatial.orientation = (0, 0, 0, 1) ∧
    (ballEntityOf b).spatial.scale = ScaleVal.num b.r ∧
    (ballEntityOf b).modelMatrix =
      scaleTranslateMat b.r b.p.1 b.p.2.1 b.p.2.2 ∧
    (∀ solItem : SolItem, (itemEntityOf solItem).elim True (fun e =>
      e.modelMatrix =
        scaleTranslateMat (3/20) solItem.p.1 solItem.p.2.1 solItem.p.2.2)) := by
  refine ⟨rfl, rfl, rfl, rfl, rfl, ?_⟩
  intro solItem
  unfold itemEntityOf
  cases itemTags.getD solItem.t none with
  | none => trivial
  | some tag => exact rfl

/-! ### Billboard transforms — `Billboard.prototype.getForegroundTransform`
(`src/src/solid-model.js` lines 90–116)

Float arithmetic and `Math.sin` are idealised over `ℝ`. -/

abbrev Mat4 := Matrix (Fin 4) (Fin 4) ℝ

noncomputable def rotX (a : ℝ) : Mat4 :=
  Matrix.of
    ![![1, 0, 0, 0],
      ![0, Real.cos a, -(Real.sin a), 0],
      ![0, Real.sin a, Real.cos a, 0],
      ![0, 0, 0, 1]]

noncomputable def rotY (a : ℝ) : Mat4 :=
  Matrix.of
    ![![Real.cos a, 0, Real.sin a, 0],
      ![0, 1, 0, 0],
      ![-(Real.sin a), 0, Real.cos a, 0],
      ![0, 0, 0, 1]]

noncomputable def rotZ (a : ℝ) : Mat4 :=
  Matrix.of
    ![![Real.cos a, -(Real.sin a), 0, 0],
      ![Real.sin a, Real.cos a, 0, 0],
      ![0, 0, 1, 0],
      ![0, 0, 0, 1]]

/-- `mat4.rotateX(M, M, a * Math.PI / 180)` guarded by JS truthiness:
applied only when the (degree) angle is non-zero. -/
noncomputable def mat4RotateXIf (M : Mat4) (deg : ℝ) : Mat4 :=
  if deg = 0 then M else M * rotX (deg / 180 * Real.pi)

noncomputable def mat4RotateYIf (M : Mat4) (deg : ℝ) : Mat4 :=
  if deg = 0 then M else M * rotY (deg / 180 * Real.pi)

noncomputable def mat4RotateZIf (M : Mat4) (deg : ℝ) : Mat4 :=
  if deg = 0 then M else M * rotZ (deg / 180 * Real.pi)

/-- `mat4.scale(M, M, [w, h, 0])`: post-multiplication by the non-uniform
scale. -/
noncomputable def mat4Scale (M : Mat4) (w h : ℝ) : Mat4 :=
  M * Matrix.diagonal ![w, h, 0, 1]

/-- The billboard state: time scale and the width/height/rotation
coefficient triples (constant, linear-in-T, sinusoidal). -/
structure Billboard where
  t : ℝ
  w : ℝ × ℝ × ℝ
  h : ℝ × ℝ × ℝ
  rx : ℝ × ℝ × ℝ
  ry : ℝ × ℝ × ℝ
  rz : ℝ × ℝ × ℝ

/-- One coefficient-triple evaluation `c[0] + c[1] * T + c[2] * S`, the
pattern repeated for w, h, rx, ry, rz in the source. -/
def evalCoef (c : ℝ × ℝ × ℝ) (T S : ℝ) : ℝ := c.1 + c.2.1 * T + c.2.2 * S

/-- `Billboard.prototype.getForegroundTransform`: `T = t * globalTime`,
`S = sin(T)`, conditional x-, y-, z-rotations by the evaluated degree
angles, then the non-uniform scale by (w, h, 0), all composed onto the
incoming matrix `M` (which is preserved, not reset). -/
noncomputable def getForegroundTransform (bb : Billboard) (M : Mat4)
    (globalTime : ℝ) : Mat4 :=
  mat4Scale
    (mat4RotateZIf
      (mat4RotateYIf
        (mat4RotateXIf M
          (evalCoef bb.rx (bb.t * globalTime) (Real.sin (bb.t * globalTime))))
        (evalCoef bb.ry (bb.t * globalTime) (Real.sin (bb.t * globalTime))))
      (evalCoef bb.rz (bb.t * globalTime) (Real.sin (bb.t * globalTime))))
    (evalCoef bb.w (bb.t * globalTime) (Real.sin (bb.t * globalTime)))
    (evalCoef bb.h (bb.t * globalTime) (Real.sin (bb.t * globalTime)))

/-- The claim's formulation of the billboard transform, written from the
spec's words: let `T = timeScale × globalTime`, `S = sin T`;
`width = w0 + w1·T + w2·S`, height analogous, three rotation angles
(degrees) `r0 + r1·T + r2·S` applied in x, y, z order, each skipped when
its evaluated angle is exactly zero, followed by the non-uniform scale by
`(width, height, 0)`. -/
noncomputable def billTransformSpec (bb : Billboard) (M : Mat4)
    (globalTime : ℝ) : Mat4 :=
  let T := bb.t * globalTime
  let S := Real.sin T
  let width := bb.w.1 + bb.w.2.1 * T + bb.w.2.2 * S
  let height := bb.h.1 + bb.h.2.1 * T + bb.h.2.2 * S
  let ax := bb.rx.1 + bb.rx.2.1 * T + bb.rx.2.2 * S
  let ay := bb.ry.1 + bb.ry.2.1 * T + bb.ry.2.2 * S
  let az := bb.rz.1 + bb.rz.2.1 * T + bb.rz.2.2 * S
  let M1 := if ax = 0 then M else M * rotX (ax / 180 * Real.pi)
  let M2 := if ay = 0 then M1 else M1 * rotY (ay / 180 * Real.pi)
  let M3 := if az = 0 then M2 else M2 * rotZ (az / 180 * Real.pi)
  M3 * Matrix.diagonal ![width, height, 0, 1]

theorem evalCoef_at_zero (c : ℝ × ℝ × ℝ) :
    evalCoef c 0 (Real.sin 0) = c.1 := by
  simp [evalCoef]

/-- C5: the billboard foreground transform computes exactly the spec's
formula (T = t·g, S = sin T, width/height/angle polynomials, x-y-z
rotation order with exact-zero skipping, then the (width, height, 0)
scale), and at global time 0 it reduces to the coefficient-0 terms alone. -/
theorem C5_billboard_transform (bb : Billboard) (M : Mat4) (g : ℝ) :
    getForegroundTransform bb M g = billTransformSpec bb M g ∧
    getForegroundTransform bb M 0 =
      mat4Scale
        (mat4RotateZIf (mat4RotateYIf (mat4RotateXIf M bb.rx.1) bb.ry.1)
          bb.rz.1)
        bb.w.1 bb.h.1 := by
  constructor
  · rfl
  · unfold getForegroundTransform
    rw [mul_zero, evalCoef_at_zero, evalCoef_at_zero, evalCoef_at_zero,
      evalCoef_at_zero, evalCoef_at_zero]

end Parabola
